import Mathlib

/-!
Verification development for `simpleq` (file `src/simpleq/queues.py`).

The repository holds a client-side abstraction over Amazon SQS: a `Queue`
class (in `src/simpleq/queues.py`) and a `Job` class (in `simpleq/jobs.py`,
which is imported by `queues.py` but is not part of the sources available
here; everything taken from it is modelled from the spec and marked as such).

The embedding is state- and trace-explicit:

* Python instance attributes of a `Queue` object are a record of `Option`
  fields (`none` = the attribute is not in the instance dictionary, so
  reading it raises `AttributeError`);
* the class-level property `queue` has a getter and no setter, so the
  attribute assignment `self.queue = None` performed by `__init__`
  raises `AttributeError`;
* every operation returns an `Except PyErr` result together with the list
  of service-client calls it issued, in order.
-/

/-! ## Payload and wire format (modelled from the spec) -/

/-- Modelled from the spec: primitive payload values (`simpleq/jobs.py` is not
under `src/`; spec §4.2 requires support for "primitive values"). -/
inductive Prim where
  | null
  | bool (b : Bool)
  | int (n : Int)
  | str (s : String)
deriving DecidableEq

mutual
/-- Modelled from the spec: a job payload — "arbitrary structured data":
primitive values, ordered sequences, and key/value mappings with string keys
(spec §4.2). `simpleq/jobs.py` is not under `src/`. -/
inductive Payload where
  | prim (p : Prim)
  | seq (elems : PayloadSeq)
  | map (entries : PayloadMap)
deriving DecidableEq

/-- Modelled from the spec: an ordered sequence of payloads. -/
inductive PayloadSeq where
  | nil
  | cons (head : Payload) (tail : PayloadSeq)
deriving DecidableEq

/-- Modelled from the spec: a key/value mapping with string keys, as an
ordered list of entries. -/
inductive PayloadMap where
  | nil
  | cons (key : String) (value : Payload) (tail : PayloadMap)
deriving DecidableEq
end

/-- Modelled from the spec: one unit of the wire encoding of a payload.  The
spec leaves the wire format to the implementation ("must produce a format
that `deserialize` can invert exactly", §4.2), so the wire body is modelled
as a list of tokens: a primitive, a sequence header carrying the element
count, a mapping header carrying the entry count, or a mapping key. -/
inductive Tok where
  | tprim (p : Prim)
  | tseq (n : Nat)
  | tmap (n : Nat)
  | tkey (k : String)
deriving DecidableEq

/-- Number of elements of a payload sequence. -/
def seqLen : PayloadSeq → Nat
  | PayloadSeq.nil => 0
  | PayloadSeq.cons _ tl => seqLen tl + 1

/-- Number of entries of a payload mapping. -/
def mapLen : PayloadMap → Nat
  | PayloadMap.nil => 0
  | PayloadMap.cons _ _ tl => mapLen tl + 1

mutual
/-- Modelled from the spec: `serialize(payload) → wire bytes` (§4.2), as a
preorder token stream: a sequence or mapping is emitted as a header with its
length followed by the encodings of its elements/entries. -/
def serializeP : Payload → List Tok
  | Payload.prim p => [Tok.tprim p]
  | Payload.seq xs => Tok.tseq (seqLen xs) :: serializeSeq xs
  | Payload.map m => Tok.tmap (mapLen m) :: serializeMap m

/-- Wire encoding of the elements of a sequence, in order. -/
def serializeSeq : PayloadSeq → List Tok
  | PayloadSeq.nil => []
  | PayloadSeq.cons x tl => serializeP x ++ serializeSeq tl

/-- Wire encoding of the entries of a mapping, in order: each entry is its
key token followed by the encoding of its value. -/
def serializeMap : PayloadMap → List Tok
  | PayloadMap.nil => []
  | PayloadMap.cons k v tl => Tok.tkey k :: (serializeP v ++ serializeMap tl)
end

mutual
/-- Modelled from the spec: the payload parser underlying `deserialize`
(§4.2).  `parseP fuel ts` reads one payload from the front of `ts` and
returns it with the remaining tokens; `none` models `MalformedMessage`.
`fuel` bounds the recursion depth and strictly decreases on every call. -/
def parseP : Nat → List Tok → Option (Payload × List Tok)
  | 0, _ => none
  | _ + 1, [] => none
  | _ + 1, Tok.tkey _ :: _ => none
  | _ + 1, Tok.tprim p :: rest => some (Payload.prim p, rest)
  | f + 1, Tok.tseq n :: rest =>
    match parseSeq f n rest with
    | some (xs, rest2) => some (Payload.seq xs, rest2)
    | none => none
  | f + 1, Tok.tmap n :: rest =>
    match parseMap f n rest with
    | some (m, rest2) => some (Payload.map m, rest2)
    | none => none
termination_by f _ => (f, 0)

/-- Reads exactly `n` payloads from the front of the token list. -/
def parseSeq : Nat → Nat → List Tok → Option (PayloadSeq × List Tok)
  | _, 0, rest => some (PayloadSeq.nil, rest)
  | 0, _ + 1, _ => none
  | f + 1, n + 1, rest =>
    match parseP f rest with
    | some (x, rest2) =>
      match parseSeq f n rest2 with
      | some (tl, rest3) => some (PayloadSeq.cons x tl, rest3)
      | none => none
    | none => none
termination_by f n _ => (f, n)

/-- Reads exactly `n` key/value entries from the front of the token list. -/
def parseMap : Nat → Nat → List Tok → Option (PayloadMap × List Tok)
  | _, 0, rest => some (PayloadMap.nil, rest)
  | 0, _ + 1, _ => none
  | f + 1, n + 1, Tok.tkey k :: rest =>
    match parseP f rest with
    | some (v, rest2) =>
      match parseMap f n rest2 with
      | some (tl, rest3) => some (PayloadMap.cons k v tl, rest3)
      | none => none
    | none => none
  | _ + 1, _ + 1, _ => none
termination_by f n _ => (f, n)
end

mutual
/-- Recursion depth needed to parse back the encoding of a payload. -/
def sizeP : Payload → Nat
  | Payload.prim _ => 1
  | Payload.seq xs => sizeSeq xs + 1
  | Payload.map m => sizeMap m + 1

/-- Recursion depth needed to parse back the encoding of a sequence. -/
def sizeSeq : PayloadSeq → Nat
  | PayloadSeq.nil => 0
  | PayloadSeq.cons x tl => max (sizeP x) (sizeSeq tl) + 1

/-- Recursion depth needed to parse back the encoding of a mapping. -/
def sizeMap : PayloadMap → Nat
  | PayloadMap.nil => 0
  | PayloadMap.cons _ v tl => max (sizeP v) (sizeMap tl) + 1
end

theorem serializeP_length_pos (p : Payload) : 1 ≤ (serializeP p).length := by
  cases p <;> simp [serializeP]

mutual
theorem sizeP_le (p : Payload) : sizeP p ≤ 2 * (serializeP p).length := by
  cases p with
  | prim q => simp [sizeP, serializeP]
  | seq xs =>
    have h := sizeSeq_le xs
    simp only [sizeP, serializeP, List.length_cons]
    omega
  | map m =>
    have h := sizeMap_le m
    simp only [sizeP, serializeP, List.length_cons]
    omega

theorem sizeSeq_le (xs : PayloadSeq) : sizeSeq xs ≤ 2 * (serializeSeq xs).length + 1 := by
  cases xs with
  | nil => simp [sizeSeq, serializeSeq]
  | cons x tl =>
    have hx := sizeP_le x
    have htl := sizeSeq_le tl
    have hp := serializeP_length_pos x
    simp only [sizeSeq, serializeSeq, List.length_append]
    omega

theorem sizeMap_le (m : PayloadMap) : sizeMap m ≤ 2 * (serializeMap m).length + 1 := by
  cases m with
  | nil => simp [sizeMap, serializeMap]
  | cons k v tl =>
    have hv := sizeP_le v
    have htl := sizeMap_le tl
    have hp := serializeP_length_pos v
    simp only [sizeMap, serializeMap, List.length_cons, List.length_append]
    omega
end

mutual
theorem parseP_serializeP (p : Payload) : ∀ f : Nat, sizeP p ≤ f →
    ∀ rest : List Tok, parseP f (serializeP p ++ rest) = some (p, rest) := by
  cases p with
  | prim q =>
    intro f hf rest
    match f, hf with
    | f' + 1, _ => simp [serializeP, parseP]
  | seq xs =>
    intro f hf rest
    match f, hf with
    | f' + 1, hf =>
      have h1 : sizeSeq xs ≤ f' := by
        simp only [sizeP] at hf; omega
      have h2 := parseSeq_serializeSeq xs f' h1 rest
      simp [serializeP, parseP, h2]
  | map m =>
    intro f hf rest
    match f, hf with
    | f' + 1, hf =>
      have h1 : sizeMap m ≤ f' := by
        simp only [sizeP] at hf; omega
      have h2 := parseMap_serializeMap m f' h1 rest
      simp [serializeP, parseP, h2]

theorem parseSeq_serializeSeq (xs : PayloadSeq) : ∀ f : Nat, sizeSeq xs ≤ f →
    ∀ rest : List Tok, parseSeq f (seqLen xs) (serializeSeq xs ++ rest) = some (xs, rest) := by
  cases xs with
  | nil =>
    intro f _ rest
    cases f <;> simp [serializeSeq, seqLen, parseSeq]
  | cons x tl =>
    intro f hf rest
    match f, hf with
    | f' + 1, hf =>
      have hx : sizeP x ≤ f' := by
        simp only [sizeSeq] at hf; omega
      have htl : sizeSeq tl ≤ f' := by
        simp only [sizeSeq] at hf; omega
      have h1 := parseP_serializeP x f' hx (serializeSeq tl ++ rest)
      have h2 := parseSeq_serializeSeq tl f' htl rest
      simp [serializeSeq, seqLen, parseSeq, List.append_assoc, h1, h2]

theorem parseMap_serializeMap (m : PayloadMap) : ∀ f : Nat, sizeMap m ≤ f →
    ∀ rest : List Tok, parseMap f (mapLen m) (serializeMap m ++ rest) = some (m, rest) := by
  cases m with
  | nil =>
    intro f _ rest
    cases f <;> simp [serializeMap, mapLen, parseMap]
  | cons k v tl =>
    intro f hf rest
    match f, hf with
    | f' + 1, hf =>
      have hv : sizeP v ≤ f' := by
        simp only [sizeMap] at hf; omega
      have htl : sizeMap tl ≤ f' := by
        simp only [sizeMap] at hf; omega
      have h1 := parseP_serializeP v f' hv (serializeMap tl ++ rest)
      have h2 := parseMap_serializeMap tl f' htl rest
      simp [serializeMap, mapLen, parseMap, List.append_assoc, h1, h2]
end

/-- Modelled from the spec: `deserialize` of a wire body (§4.2): parse one
payload from the token list, requiring the whole body to be consumed;
`none` models `MalformedMessage`. -/
def deserialize (body : List Tok) : Option Payload :=
  match parseP (2 * body.length) body with
  | some (p, []) => some p
  | _ => none

theorem deserialize_serializeP (p : Payload) : deserialize (serializeP p) = some p := by
  have h := parseP_serializeP p (2 * (serializeP p).length) (sizeP_le p) []
  rw [List.append_nil] at h
  simp [deserialize, h]

/-! ## Jobs (modelled from the spec; `simpleq/jobs.py` is not under `src/`) -/

/-- Modelled from the spec: a wire message as handed back by the service —
a body (the serialized payload) plus the receipt handle used for
deletion/acknowledgment ("an opaque reference to a specific in-flight wire
message", glossary).  `receipt_handle = none` models a message value that
carries no handle. -/
structure Message where
  body : List Tok
  receipt_handle : Option Nat
deriving DecidableEq

/-- Modelled from the spec: a `Job` — "a `payload` (the work unit to execute
...) and a `handle` (... used only for delete/ack — never constructed by the
caller, only produced by deserialization)" (spec §3). -/
structure Job where
  payload : Payload
  handle : Option Nat
deriving DecidableEq

/-- Modelled from the spec: `Job.from_message`, used by `Queue.jobs`
(`queues.py` line 135): `deserialize(wire message) → Job` "extracts payload
and captures the wire handle" (§4.2); `none` models `MalformedMessage`. -/
def Job.from_message (m : Message) : Option Job :=
  (deserialize m.body).map fun p => { payload := p, handle := m.receipt_handle }

/-- Modelled from the spec: the wire message of a job, used by
`Queue.add_job` (line 103) and `Queue.remove_job` (line 111): the serialized
payload together with whatever handle the job carries. -/
def Job._message (j : Job) : Message :=
  { body := serializeP j.payload, receipt_handle := j.handle }

/-! ## The Queue class (`src/simpleq/queues.py`) -/

/-- A boto region object (only its `name` is ever read, in `__repr__`). -/
structure Region where
  name : String
deriving DecidableEq

/-- A boto SQS connection object as a value: the class stores it in the
instance attribute `connection` (line 59).  Its observable behaviour (what
the service returns) is modelled separately by `SQSEnv`. -/
structure ConnObj where
  region : Region
deriving DecidableEq

/-- A boto SQS queue resource object (the value of the resolved queue). -/
structure SQSQueue where
  qid : Nat
deriving DecidableEq

/-- One call issued to the SQS service client, as observed at the
boto-connection boundary. -/
inductive ClientCall where
  | connect_to_region (region : String)
  | get_queue (name : String)
  | create_queue (name : String)
  | delete_queue (q : SQSQueue)
  | get_messages (q : SQSQueue) (num_messages : Nat) (wait_time_seconds : Nat)
  | write (q : SQSQueue) (m : Message)
  | delete_message (q : SQSQueue) (m : Message)
deriving DecidableEq

/-- The deterministic behaviour of the SQS service for one run: what
`get_queue` returns for a name (`none` = no such queue), what
`create_queue` returns, and what a batched `get_messages` fetch returns. -/
structure SQSEnv where
  get_queue : String → Option SQSQueue
  create_queue : String → SQSQueue
  get_messages : SQSQueue → Nat → Nat → List Message

/-- A Python exception.  `attributeError a` models `AttributeError` raised
at an access or assignment involving attribute `a`.  The remaining
constructors name errors from the spec's taxonomy (§7); the code under
`src/` never defines or raises them, which several theorems below exhibit. -/
inductive PyErr where
  | attributeError (attr : String)
  | malformedMessage
  | invalidJobHandle
  | queueNotFound
deriving DecidableEq

/-- The instance attributes a `Queue` object can hold.  Each field is the
value of one attribute in the instance dictionary, `none` meaning the
attribute is absent (so reading it raises `AttributeError`).  `__init__`
(lines 58–59) assigns `name` and `connection`; the property getter `queue`
(lines 78–85) reads and assigns `_queue` and reads `_connection`; `delete`
(line 93) reads `_connection`.  A present `_queue` holds a Python value
that is either `None` (inner `none`) or a queue resource. -/
structure QueueInstance where
  name : Option String
  connection : Option ConnObj
  _queue : Option (Option SQSQueue)
  _connection : Option ConnObj
deriving DecidableEq

/-- `Queue.BATCH_SIZE` (line 44). -/
def Queue.BATCH_SIZE : Nat := 10

/-- `Queue.WAIT_SECONDS` (line 45). -/
def Queue.WAIT_SECONDS : Nat := 20

/-- The class body binds `queue` (lines 69–85) with `@property`: a getter
and no setter. -/
def Queue.queue_property_has_setter : Bool := false

/-- Python attribute assignment `self.queue = v` (line 60): the class-level
name `queue` is a property, a data descriptor, so the assignment is routed
to the property; having no setter, it raises `AttributeError`. -/
def Queue.setattr_queue (self : QueueInstance) (v : Option SQSQueue) :
    Except PyErr QueueInstance :=
  if Queue.queue_property_has_setter then
    Except.ok { self with _queue := some v }
  else
    Except.error (PyErr.attributeError "queue")

/-- `Queue.__init__` (lines 47–60): assigns `self.name`, assigns
`self.connection` to the given connection or to
`connect_to_region('us-east-1')` (the call is recorded in the trace and its
result modelled by `default_conn`), then executes `self.queue = None`.
Returns the constructed instance or the raised exception, with the list of
client calls issued. -/
def Queue.init (name : String) (connection : Option ConnObj) (default_conn : ConnObj) :
    Except PyErr QueueInstance × List ClientCall :=
  let step : ConnObj × List ClientCall :=
    match connection with
    | some c => (c, [])
    | none => (default_conn, [ClientCall.connect_to_region "us-east-1"])
  let self : QueueInstance :=
    { name := some name, connection := some step.1, _queue := none, _connection := none }
  match Queue.setattr_queue self none with
  | Except.ok self2 => (Except.ok self2, step.2)
  | Except.error e => (Except.error e, step.2)

/-- The instance state `__init__` has built when it reaches its final
statement `self.queue = None` (the statement that raises): `name` and
`connection` are set, `_queue` and `_connection` are absent. -/
def Queue.initState (name : String) (c : ConnObj) : QueueInstance :=
  { name := some name, connection := some c, _queue := none, _connection := none }

/-- The instance state the method bodies assume the constructor to have
established: `_queue` present and holding `None` (as the original upstream
constructor's `self._queue = None` would produce) and `_connection` present.
No path through the class as written produces this state; it isolates the
behaviour of the method bodies from the constructor's attribute slips. -/
def Queue.repairedState (name : String) (c : ConnObj) : QueueInstance :=
  { name := some name, connection := some c, _queue := some none, _connection := some c }

/-- An instance state whose `_queue` attribute caches a resolved queue
resource (what the getter's line 81/83 assignments produce). -/
def Queue.cachedState (name : String) (c : ConnObj) (q : SQSQueue) : QueueInstance :=
  { name := some name, connection := some c, _queue := some (some q), _connection := some c }

/-- The property getter `queue` (lines 69–85).  Line 78 reads
`self._queue`: absent ⇒ `AttributeError`; present and truthy ⇒ return it.
Otherwise line 81 reads `self._connection` (absent ⇒ `AttributeError`) and
calls `get_queue(self.name)`; if that is falsy, line 83 calls
`create_queue(self.name)`.  The result is cached in `_queue` and
returned. -/
def Queue.queue_get (env : SQSEnv) (self : QueueInstance) :
    Except PyErr (SQSQueue × QueueInstance) × List ClientCall :=
  match self._queue with
  | none => (Except.error (PyErr.attributeError "_queue"), [])
  | some (some qq) => (Except.ok (qq, self), [])
  | some none =>
    match self._connection with
    | none => (Except.error (PyErr.attributeError "_connection"), [])
    | some _ =>
      match self.name with
      | none => (Except.error (PyErr.attributeError "name"), [])
      | some nm =>
        match env.get_queue nm with
        | some found =>
          (Except.ok (found, { self with _queue := some (some found) }),
            [ClientCall.get_queue nm])
        | none =>
          let created := env.create_queue nm
          (Except.ok (created, { self with _queue := some (some created) }),
            [ClientCall.get_queue nm, ClientCall.create_queue nm])

/-- `Queue.delete` (lines 87–93): `self._connection.delete_queue(self.queue)`.
Python first resolves the attribute `self._connection` (absent ⇒
`AttributeError`), then evaluates the argument `self.queue` (the property
getter), then issues the `delete_queue` call. -/
def Queue.delete (env : SQSEnv) (self : QueueInstance) :
    Except PyErr QueueInstance × List ClientCall :=
  match self._connection with
  | none => (Except.error (PyErr.attributeError "_connection"), [])
  | some _ =>
    match Queue.queue_get env self with
    | (Except.error e, calls) => (Except.error e, calls)
    | (Except.ok (qq, self1), calls) =>
      (Except.ok self1, calls ++ [ClientCall.delete_queue qq])

/-- `Queue.add_job` (lines 95–103): `self.queue.write(job._message)` —
resolve the queue via the property getter, then issue one publish call with
the job's wire message. -/
def Queue.add_job (env : SQSEnv) (self : QueueInstance) (job : Job) :
    Except PyErr QueueInstance × List ClientCall :=
  match Queue.queue_get env self with
  | (Except.error e, calls) => (Except.error e, calls)
  | (Except.ok (qq, self1), calls) =>
    (Except.ok self1, calls ++ [ClientCall.write qq (Job._message job)])

/-- `Queue.remove_job` (lines 105–111): `self.queue.delete_message(job._message)`
— resolve the queue via the property getter, then issue one delete call
with the job's wire message.  The body performs no check on the job's
handle. -/
def Queue.remove_job (env : SQSEnv) (self : QueueInstance) (job : Job) :
    Except PyErr QueueInstance × List ClientCall :=
  match Queue.queue_get env self with
  | (Except.error e, calls) => (Except.error e, calls)
  | (Except.ok (qq, self1), calls) =>
    (Except.ok self1, calls ++ [ClientCall.delete_message qq (Job._message job)])

/-- The property getter `jobs` (lines 113–137): resolve the queue via the
`queue` property, issue one `get_messages(num_messages = BATCH_SIZE,
wait_time_seconds = WAIT_SECONDS)` fetch, and deserialize each returned
message with `Job.from_message`. -/
def Queue.jobs (env : SQSEnv) (self : QueueInstance) :
    Except PyErr (List Job × QueueInstance) × List ClientCall :=
  match Queue.queue_get env self with
  | (Except.error e, calls) => (Except.error e, calls)
  | (Except.ok (qq, self1), calls) =>
    match (env.get_messages qq Queue.BATCH_SIZE Queue.WAIT_SECONDS).mapM Job.from_message with
    | some js =>
      (Except.ok (js, self1),
        calls ++ [ClientCall.get_messages qq Queue.BATCH_SIZE Queue.WAIT_SECONDS])
    | none =>
      (Except.error PyErr.malformedMessage,
        calls ++ [ClientCall.get_messages qq Queue.BATCH_SIZE Queue.WAIT_SECONDS])

/-- A run of `n` successive accesses to the `queue` property on one
instance, accumulating the client calls issued; an access that raises
leaves the instance unchanged. -/
def Queue.iterate_queue_get (env : SQSEnv) : Nat → QueueInstance → QueueInstance × List ClientCall
  | 0, self => (self, [])
  | n + 1, self =>
    match Queue.queue_get env self with
    | (Except.ok (_, self1), calls) =>
      let rest := Queue.iterate_queue_get env n self1
      (rest.1, calls ++ rest.2)
    | (Except.error _, calls) =>
      let rest := Queue.iterate_queue_get env n self
      (rest.1, calls ++ rest.2)

/-! ## Concrete fixtures for closed statements -/

/-- The default region object. -/
def region0 : Region := { name := "us-east-1" }

/-- A concrete boto connection object. -/
def conn0 : ConnObj := { region := region0 }

/-- A concrete queue resource. -/
def q0 : SQSQueue := { qid := 0 }

/-- A service run in which every queue name already exists (resolving to
`q0`) and every fetch returns zero messages. -/
def envExists : SQSEnv :=
  { get_queue := fun _ => some q0
    create_queue := fun _ => q0
    get_messages := fun _ _ _ => [] }

/-- A service run in which no queue name exists yet; creation yields `q0`;
every fetch returns zero messages. -/
def envAbsent : SQSEnv :=
  { get_queue := fun _ => none
    create_queue := fun _ => q0
    get_messages := fun _ _ _ => [] }

/-- A job as a producer would construct it: a payload and no handle. -/
def freshJob : Job := { payload := Payload.prim Prim.null, handle := none }

/-- The spec's §8 example job `Job({"x": 1})`, freshly constructed. -/
def jobX : Job :=
  { payload := Payload.map (PayloadMap.cons "x" (Payload.prim (Prim.int 1)) PayloadMap.nil)
    handle := none }

/-! ## Helper lemmas -/

theorem queue_get_initState (env : SQSEnv) (name : String) (c : ConnObj) :
    Queue.queue_get env (Queue.initState name c) =
      (Except.error (PyErr.attributeError "_queue"), []) := rfl

theorem queue_get_cachedState (env : SQSEnv) (name : String) (c : ConnObj) (q : SQSQueue) :
    Queue.queue_get env (Queue.cachedState name c q) =
      (Except.ok (q, Queue.cachedState name c q), []) := rfl

theorem iterate_queue_get_initState (env : SQSEnv) (name : String) (c : ConnObj) :
    ∀ n : Nat, Queue.iterate_queue_get env n (Queue.initState name c) =
      (Queue.initState name c, [])
  | 0 => rfl
  | n + 1 => by
    have ih := iterate_queue_get_initState env name c n
    simp [Queue.iterate_queue_get, queue_get_initState, ih]

theorem iterate_queue_get_cachedState (env : SQSEnv) (name : String) (c : ConnObj)
    (q : SQSQueue) :
    ∀ n : Nat, Queue.iterate_queue_get env n (Queue.cachedState name c q) =
      (Queue.cachedState name c q, [])
  | 0 => rfl
  | n + 1 => by
    have ih := iterate_queue_get_cachedState env name c q n
    simp [Queue.iterate_queue_get, queue_get_cachedState, ih]

theorem queue_get_repairedState_exists (name : String) (c : ConnObj) :
    Queue.queue_get envExists (Queue.repairedState name c) =
      (Except.ok (q0, Queue.cachedState name c q0), [ClientCall.get_queue name]) := rfl

theorem jobs_initState (env : SQSEnv) (name : String) (c : ConnObj) :
    Queue.jobs env (Queue.initState name c) =
      (Except.error (PyErr.attributeError "_queue"), []) := rfl

theorem jobs_cachedState_trace (env : SQSEnv) (name : String) (c : ConnObj) (q : SQSQueue) :
    (Queue.jobs env (Queue.cachedState name c q)).2 =
      [ClientCall.get_messages q Queue.BATCH_SIZE Queue.WAIT_SECONDS] := by
  simp only [Queue.jobs, queue_get_cachedState]
  cases (env.get_messages q Queue.BATCH_SIZE Queue.WAIT_SECONDS).mapM Job.from_message <;> rfl

/-! ## Claims -/

/-- C1: the claim says every `jobs` call issues exactly one batched fetch,
asking for at most 10 messages and at most a 20-second wait, fixed by the
class constants.  The call site (lines 131–134) does pass
`num_messages = BATCH_SIZE = 10` and `wait_time_seconds = WAIT_SECONDS = 20`
and takes no caller-supplied bounds, and on an instance state with a cached
resource a `jobs` call issues exactly that one fetch; but on every instance
state the constructor produces, `jobs` raises `AttributeError` reading the
never-assigned `_queue` (line 78) and issues no fetch at all. -/
theorem C1_jobs_single_bounded_fetch (env : SQSEnv) (name : String) (c : ConnObj)
    (q : SQSQueue) :
    Queue.jobs env (Queue.initState name c) =
      (Except.error (PyErr.attributeError "_queue"), []) ∧
    (Queue.jobs env (Queue.cachedState name c q)).2 =
      [ClientCall.get_messages q Queue.BATCH_SIZE Queue.WAIT_SECONDS] ∧
    Queue.BATCH_SIZE = 10 ∧ Queue.WAIT_SECONDS = 20 :=
  ⟨jobs_initState env name c, jobs_cachedState_trace env name c q, rfl, rfl⟩

/-- C2: the claim says `resource` is resolved at most once per instance and
then cached.  On every instance state the constructor produces, any number
of accesses to the `queue` property issue zero `get_queue` and zero
`create_queue` calls, leave the state unchanged, and never resolve anything
(each access raises `AttributeError` at line 78); whereas from the state the
method bodies assume the constructor to establish, `n + 1` accesses issue
exactly one `get_queue` call in total and every access after the first
returns the cached resource with no client call. -/
theorem C2_lazy_single_resolution (env : SQSEnv) (name : String) (c : ConnObj) (n : Nat) :
    Queue.iterate_queue_get env n (Queue.initState name c) = (Queue.initState name c, []) ∧
    Queue.iterate_queue_get envExists (n + 1) (Queue.repairedState name c) =
      (Queue.cachedState name c q0, [ClientCall.get_queue name]) := by
  refine ⟨iterate_queue_get_initState env name c n, ?_⟩
  simp [Queue.iterate_queue_get, queue_get_repairedState_exists,
    iterate_queue_get_cachedState envExists name c q0 n]

/-- C3: the claim says the first `resource` access performs get-or-create:
no create call when the queue exists remotely, exactly one create call when
absent.  Lines 81–83 do implement this — from the state the method bodies
assume, the access issues `[get_queue]` when the name resolves and
`[get_queue, create_queue]` when it does not, caching the result — but on
the instance state the constructor produces the access raises
`AttributeError` at line 78 before issuing any call, even though the queue
exists remotely. -/
theorem C3_get_or_create :
    Queue.queue_get envExists (Queue.initState "N" conn0) =
      (Except.error (PyErr.attributeError "_queue"), []) ∧
    Queue.queue_get envExists (Queue.repairedState "N" conn0) =
      (Except.ok (q0, Queue.cachedState "N" conn0 q0), [ClientCall.get_queue "N"]) ∧
    Queue.queue_get envAbsent (Queue.repairedState "N" conn0) =
      (Except.ok (q0, Queue.cachedState "N" conn0 q0),
        [ClientCall.get_queue "N", ClientCall.create_queue "N"]) :=
  ⟨rfl, rfl, rfl⟩

/-- C4: the claim says construction completes successfully and returns a
usable Queue value.  It does not: for every name and every present-or-absent
connection argument, `__init__`'s final statement `self.queue = None`
assigns to the class-level read-only property `queue`, which has no setter,
so construction raises `AttributeError`. -/
theorem C4_constructor_attribute_error (name : String) (connection : Option ConnObj)
    (dc : ConnObj) :
    (Queue.init name connection dc).1 = Except.error (PyErr.attributeError "queue") := by
  cases connection <;> rfl

/-- C5: the claim says operations read attributes the constructor actually
initializes.  They do not: on the state `__init__` builds, the `queue`
property getter raises `AttributeError` reading `_queue` (line 78, never
assigned by the constructor) and `delete` raises `AttributeError` reading
`_connection` (line 93; the constructor assigns `connection` instead), both
before any service-client call. -/
theorem C5_uninitialized_attribute_reads (env : SQSEnv) (name : String) (c : ConnObj) :
    Queue.queue_get env (Queue.initState name c) =
      (Except.error (PyErr.attributeError "_queue"), []) ∧
    Queue.delete env (Queue.initState name c) =
      (Except.error (PyErr.attributeError "_connection"), []) :=
  ⟨rfl, rfl⟩

/-- C6: the claim says a `jobs` call whose fetch returns zero messages
returns an empty sequence without error.  The loop body (lines 129–137)
does behave that way on a state with a cached resource — the result is
`ok []` after one fetch — but on every instance state the constructor
produces, `jobs` raises `AttributeError` at line 78 before the fetch, so
the empty-fetch success path is unreachable. -/
theorem C6_empty_fetch_result :
    Queue.jobs envExists (Queue.initState "empty-test" conn0) =
      (Except.error (PyErr.attributeError "_queue"), []) ∧
    Queue.jobs envExists (Queue.cachedState "empty-test" conn0 q0) =
      (Except.ok ([], Queue.cachedState "empty-test" conn0 q0),
        [ClientCall.get_messages q0 Queue.BATCH_SIZE Queue.WAIT_SECONDS]) :=
  ⟨rfl, rfl⟩

/-- C7: the claim says construction performs no queue-resolution call,
creates a default-region client when none is given, and yields a value with
`resource` unresolved.  The constructor does issue only the
`connect_to_region('us-east-1')` call (no `get_queue`/`create_queue`) when
no connection is given and no client call at all when one is given — but in
both cases it raises `AttributeError` at `self.queue = None` instead of
yielding a Queue value. -/
theorem C7_construction_lazy_default (name : String) (dc c : ConnObj) :
    Queue.init name none dc =
      (Except.error (PyErr.attributeError "queue"),
        [ClientCall.connect_to_region "us-east-1"]) ∧
    Queue.init name (some c) dc = (Except.error (PyErr.attributeError "queue"), []) :=
  ⟨rfl, rfl⟩

/-- C8 counterexample: a freshly constructed job with no handle, removed
from a Queue in the state the constructor produces, does not fail with
`InvalidJobHandle` as claimed: the call raises `AttributeError` reading
`_queue` (and issues no delete call). -/
theorem C8_remove_job_counterexample :
    Queue.remove_job envExists (Queue.initState "test" conn0) freshJob =
      (Except.error (PyErr.attributeError "_queue"), []) ∧
    Except.error (PyErr.attributeError "_queue") ≠
      (Except.error PyErr.invalidJobHandle : Except PyErr QueueInstance) :=
  ⟨rfl, fun h => PyErr.noConfusion (Except.error.inj h)⟩

/-- C8 (amended): for every job, with or without a handle, `remove_job` on
an instance state the constructor produces raises `AttributeError` reading
`_queue` before examining the job and issues no delete call; and the body
(line 111) performs no handle check at all — on a state with a cached
resource it issues exactly one `delete_message` call passing the job's wire
message, even when the job carries no handle. -/
theorem C8_remove_job_behaviour (env : SQSEnv) (name : String) (c : ConnObj) (job : Job) :
    Queue.remove_job env (Queue.initState name c) job =
      (Except.error (PyErr.attributeError "_queue"), []) ∧
    Queue.remove_job envExists (Queue.cachedState name c q0) job =
      (Except.ok (Queue.cachedState name c q0),
        [ClientCall.delete_message q0 (Job._message job)]) :=
  ⟨rfl, rfl⟩

/-- C9 counterexample: on the one kind of state where `delete()` can
succeed (resolution attributes present), a subsequent `add_job` does not
fail with `QueueNotFound` as claimed: the resolved resource is still cached
in `_queue`, so `add_job` returns successfully after issuing a publish call
against the deleted queue's stale resource. -/
theorem C9_deletion_finality_counterexample :
    Queue.delete envExists (Queue.repairedState "test" conn0) =
      (Except.ok (Queue.cachedState "test" conn0 q0),
        [ClientCall.get_queue "test", ClientCall.delete_queue q0]) ∧
    Queue.add_job envExists (Queue.cachedState "test" conn0 q0) jobX =
      (Except.ok (Queue.cachedState "test" conn0 q0),
        [ClientCall.write q0 (Job._message jobX)]) ∧
    Except.ok (Queue.cachedState "test" conn0 q0) ≠
      (Except.error PyErr.queueNotFound : Except PyErr QueueInstance) :=
  ⟨rfl, rfl, fun h => Except.noConfusion h⟩

/-- C9 (amended): on every instance state the constructor produces,
`delete()` raises `AttributeError` reading `_connection` before any
`delete_queue` call, so the DELETED state is unreachable; and the code has
no `QueueNotFound` handling — where `delete()` does succeed it leaves the
resolved resource cached, and a subsequent `add_job` issues a publish call
against that stale resource instead of failing. -/
theorem C9_deletion_finality (env : SQSEnv) (name : String) (c : ConnObj) :
    Queue.delete env (Queue.initState name c) =
      (Except.error (PyErr.attributeError "_connection"), []) ∧
    Queue.delete envExists (Queue.repairedState name c) =
      (Except.ok (Queue.cachedState name c q0),
        [ClientCall.get_queue name, ClientCall.delete_queue q0]) ∧
    Queue.add_job envExists (Queue.cachedState name c q0) jobX =
      (Except.ok (Queue.cachedState name c q0),
        [ClientCall.write q0 (Job._message jobX)]) :=
  ⟨rfl, rfl, rfl⟩

/-- C10: round-trip — deserializing the wire message produced by
serializing any supported payload (primitives, ordered sequences, string-
keyed mappings, arbitrarily nested) yields a Job whose payload equals the
original payload exactly (and whose handle is the message's handle). -/
theorem C10_round_trip (P : Payload) (rh : Option Nat) :
    Job.from_message { body := serializeP P, receipt_handle := rh } =
      some { payload := P, handle := rh } := by
  simp [Job.from_message, deserialize_serializeP]
